import Mathlib

/-!
Verification development for the barcode detection and normalization
pipeline of the catat-buku-rbr repository.

The repository contains two scanner components:
* `src/components/ISBNScanner.tsx` — a Quagga2-based scanner with a live
  decode callback (`Quagga.onDetected`) guarded by `detectionLockRef`, and a
  still-frame decode path (`fallbackCaptureAndDecode` / `Quagga.decodeSingle`).
* the BarcodeDetector/ZXing-based scanner (second component in
  `src/components/StatusFooter.tsx`) — activation acquires the camera,
  probes for the native `BarcodeDetector`, runs a 200ms `tick` interval, and
  falls back to ZXing's `BrowserMultiFormatReader` when the native detector
  is unavailable or its `detect` call rejects.

Both components contain a textually identical pure normalizer
`normalizeToISBN`.  Strings are modelled as `List Char` (the JS string's
code units); the effectful controller code is modelled as explicit state
transition systems over the events the environment can deliver.
-/

/-! ## The character class `[0-9Xx]` and JS `toUpperCase` on that class -/

/-- `[0-9]` character test, as used by the regexes in `normalizeToISBN`. -/
def isDigitC (c : Char) : Bool :=
  decide (48 ≤ c.toNat ∧ c.toNat ≤ 57)

/-- The character class kept by `text.replace(/[^0-9Xx]/g, "")`:
decimal digits and the letters `X` / `x`. -/
def keepC (c : Char) : Bool :=
  isDigitC c || decide (c = 'X') || decide (c = 'x')

/-- ASCII uppercase map, modelling JS `String.prototype.toUpperCase()` on
the ASCII range (the cleaned strings it is applied to contain only
`[0-9Xx]`, where the two agree). -/
def toUpperC (c : Char) : Char :=
  if 97 ≤ c.toNat ∧ c.toNat ≤ 122 then Char.ofNat (c.toNat - 32) else c

/-- Shape accepted by the regex `/^(978|979)\d{10}$/`: thirteen digits
beginning with `978` or `979`. -/
def ISBN13Shape (l : List Char) : Prop :=
  l.length = 13 ∧ (∀ c ∈ l, isDigitC c = true) ∧
    (l.take 3 = ['9', '7', '8'] ∨ l.take 3 = ['9', '7', '9'])

instance (l : List Char) : Decidable (ISBN13Shape l) := by
  unfold ISBN13Shape; infer_instance

/-- Shape accepted by the regex `/^\d{9}[\dXx]$/`: nine digits followed by
a digit or `X` / `x`. -/
def ISBN10Shape (l : List Char) : Prop :=
  l.length = 10 ∧ (∀ c ∈ l.take 9, isDigitC c = true) ∧
    (∀ c ∈ l.drop 9, isDigitC c = true ∨ c = 'X' ∨ c = 'x')

instance (l : List Char) : Decidable (ISBN10Shape l) := by
  unfold ISBN10Shape; infer_instance

namespace QuaggaScanner

/-- `normalizeToISBN` from `src/components/ISBNScanner.tsx` (lines 66–71):
strip every character outside `[0-9Xx]`; accept a 13-character digit string
with prefix 978/979 as-is; accept a 10-character `\d{9}[\dXx]` string
upper-cased; otherwise return `null`. -/
def normalizeToISBN (text : List Char) : Option (List Char) :=
  if ISBN13Shape (text.filter keepC) then some (text.filter keepC)
  else if ISBN10Shape (text.filter keepC) then
    some ((text.filter keepC).map toUpperC)
  else none

end QuaggaScanner

namespace ZXingScanner

/-- `normalizeToISBN` from the BarcodeDetector/ZXing scanner component in
`src/components/StatusFooter.tsx` (lines 111–118); textually identical
logic to the Quagga copy. -/
def normalizeToISBN (text : List Char) : Option (List Char) :=
  if ISBN13Shape (text.filter keepC) then some (text.filter keepC)
  else if ISBN10Shape (text.filter keepC) then
    some ((text.filter keepC).map toUpperC)
  else none

end ZXingScanner

/-! ## Quagga scanner session model (`src/components/ISBNScanner.tsx`)

State seen by an activation's handlers: the `detectionLockRef`, the
`isScanning` flag, and — for the purposes of the claims — counters of
`onISBNDetected` emissions, split by the path that produced them
(`Quagga.onDetected` live callback vs. the `decodeSingle` still-frame
callback of `fallbackCaptureAndDecode`). -/

structure QState where
  detectionLock : Bool
  isScanning : Bool
  emittedLive : Nat
  emittedStill : Nat
deriving DecidableEq, Repr

/-- State right after `startScanning` has begun a scan:
`detectionLockRef.current = false`, `isScanning = true`, nothing emitted. -/
def initQ : QState :=
  { detectionLock := false, isScanning := true, emittedLive := 0, emittedStill := 0 }

/-- Raw decode results an activation can receive: `detected code` from the
`Quagga.onDetected` live callback (`code` is `data?.codeResult?.code`,
possibly absent), and `stillDecoded code` from the `Quagga.decodeSingle`
callback of `fallbackCaptureAndDecode` (`none` models a result without a
`codeResult`). -/
inductive QEvent
  | detected (code : Option (List Char))
  | stillDecoded (code : Option (List Char))
deriving DecidableEq

/-- One handler invocation, transcribed from the source.

`detected` (lines 115–128): return if `detectionLockRef.current`; return if
no code; if `normalizeToISBN(code)` succeeds, set the lock, emit
`onISBNDetected`, and `stopScanning()`.

`stillDecoded` (lines 148–163): if the result has a code and
`normalizeToISBN(code)` succeeds, emit `onISBNDetected` and
`stopScanning()` — this path neither checks nor sets `detectionLockRef`. -/
def stepQ (st : QState) : QEvent → QState
  | QEvent.detected code =>
    if st.detectionLock then st
    else
      match code with
      | none => st
      | some c =>
        match QuaggaScanner.normalizeToISBN c with
        | some _ =>
          { st with detectionLock := true, emittedLive := st.emittedLive + 1,
                    isScanning := false }
        | none => st
  | QEvent.stillDecoded code =>
    match code with
    | none => st
    | some c =>
      match QuaggaScanner.normalizeToISBN c with
      | some _ => { st with emittedStill := st.emittedStill + 1, isScanning := false }
      | none => st

/-- Deliver a sequence of raw decode results to an activation. -/
def runQ (st : QState) (evs : List QEvent) : QState :=
  evs.foldl stepQ st

/-! ## BarcodeDetector/ZXing scanner session model (`StatusFooter.tsx`)

The second scanner's effect (`useEffect` body, lines 130–248) closes over
`isMounted`.  Its `start` path acquires the camera, probes
`window.BarcodeDetector`, and either runs a 200ms `tick` interval over the
native detector or starts the ZXing reader.  The `tick` is async: it checks
`isMounted` before `await detector.detect(...)` but not after, so a tick
can be "in flight" across a teardown. -/

inductive ZStatus
  | idle | startingCamera | scanning | detected | cameraError | scannerError
deriving DecidableEq, Repr

structure ZState where
  isMounted : Bool
  streamOn : Bool
  usingDetector : Bool
  intervalActive : Bool
  ticksInFlight : Nat
  zxingActive : Bool
  status : ZStatus
  cameraErrorSurfaced : Bool
  emitted : Nat
  staleEmitted : Nat
deriving DecidableEq, Repr

/-- Component state when the effect body begins running. -/
def initZ : ZState :=
  { isMounted := true, streamOn := false, usingDetector := false,
    intervalActive := false, ticksInFlight := 0, zxingActive := false,
    status := ZStatus.idle, cameraErrorSurfaced := false,
    emitted := 0, staleEmitted := 0 }

/-- Environment oracle for one `start()` call: whether
`navigator.mediaDevices.getUserMedia` resolves, whether
`window.BarcodeDetector` exists, and whether `new BarcodeDetector(...)`
throws. -/
structure Env where
  cameraOk : Bool
  hasBarcodeDetector : Bool
  detectorCtorThrows : Bool
deriving DecidableEq, Repr

/-- `startZXing` (lines 196–235): `setUsingBarcodeDetector(false)`, create
the `BrowserMultiFormatReader`, `setStatus("Scanning...")`, start
`decodeFromVideoDevice` (results then arrive via its callback). -/
def startZXingS (st : ZState) : ZState :=
  { st with usingDetector := false, zxingActive := true, status := ZStatus.scanning }

/-- `stopScan` (lines 250–265): clear the tick interval, reset the ZXing
reader, stop the stream tracks, `setStatus("Idle")`. -/
def stopScanS (st : ZState) : ZState :=
  { st with intervalActive := false, zxingActive := false, streamOn := false,
            status := ZStatus.idle }

/-- `start()` (lines 133–194) as a function of the environment oracle:
`getUserMedia` failure lands in the catch (`"Camera error"` status plus a
destructive toast — modelled as `cameraErrorSurfaced`); with a camera, the
native path sets `usingBarcodeDetector`, `"Scanning..."`, constructs the
detector (a constructor throw lands in the same catch) and starts the tick
interval; without `BarcodeDetector` it calls `startZXing`. -/
def startZ (env : Env) : ZState :=
  if env.cameraOk = false then
    { initZ with status := ZStatus.cameraError, cameraErrorSurfaced := true }
  else if env.hasBarcodeDetector then
    if env.detectorCtorThrows then
      { initZ with streamOn := true, usingDetector := true,
                   status := ZStatus.cameraError, cameraErrorSurfaced := true }
    else
      { initZ with streamOn := true, usingDetector := true,
                   status := ZStatus.scanning, intervalActive := true }
  else startZXingS { initZ with streamOn := true }

/-- Events the environment can deliver to a running session:
* `tickStart` — the interval fires; the tick body runs its
  `!isMounted || !videoRef.current` guard and begins `await detector.detect`;
* `detectResolve code` — an in-flight `detect` resolves (`none` models an
  empty result list, `some c` a result with raw value `c`); the
  continuation after the `await` runs with no further `isMounted` check;
* `detectReject` — an in-flight `detect` rejects; the catch calls
  `startZXing` (a `console.warn`, nothing surfaced);
* `zxingResult code` — the ZXing decode callback fires (`none` models a
  `NotFoundException` miss); it checks `isMounted` first;
* `zxingError` — the ZXing callback fires with a non-`NotFoundException`
  error (status becomes `"Scanner error"`, nothing emitted);
* `cancel` — the effect cleanup (or `isActive` turning false): set
  `isMounted := false` and run `stopScan()`. -/
inductive ZEvent
  | tickStart
  | detectResolve (code : Option (List Char))
  | detectReject
  | zxingResult (code : Option (List Char))
  | zxingError
  | cancel
deriving DecidableEq

def stepZ (st : ZState) : ZEvent → ZState
  | ZEvent.tickStart =>
    if st.intervalActive = false then st
    else if st.isMounted = false then st
    else { st with ticksInFlight := st.ticksInFlight + 1 }
  | ZEvent.detectResolve code =>
    if st.ticksInFlight = 0 then st
    else
      let st1 := { st with ticksInFlight := st.ticksInFlight - 1 }
      match code with
      | some c =>
        match ZXingScanner.normalizeToISBN c with
        | some _ =>
          { stopScanS st1 with
              emitted := st1.emitted + 1,
              staleEmitted := st1.staleEmitted + (if st1.isMounted then 0 else 1) }
        | none => { st1 with status := ZStatus.scanning }
      | none => { st1 with status := ZStatus.scanning }
  | ZEvent.detectReject =>
    if st.ticksInFlight = 0 then st
    else startZXingS { st with ticksInFlight := st.ticksInFlight - 1 }
  | ZEvent.zxingResult code =>
    if st.zxingActive = false then st
    else if st.isMounted = false then st
    else
      match code with
      | some c =>
        match ZXingScanner.normalizeToISBN c with
        | some _ =>
          { stopScanS st with
              emitted := st.emitted + 1,
              staleEmitted := st.staleEmitted + (if st.isMounted then 0 else 1) }
        | none => st
      | none => { st with status := ZStatus.scanning }
  | ZEvent.zxingError =>
    if st.zxingActive = false then st
    else if st.isMounted = false then st
    else { st with status := ZStatus.scannerError }
  | ZEvent.cancel =>
    stopScanS { st with isMounted := false }

/-- Deliver a sequence of events to the session. -/
def runZ (st : ZState) (evs : List ZEvent) : ZState :=
  evs.foldl stepZ st

/-- The standard ISBN-13 / EAN-13 check-digit condition (alternating
weights 1 and 3, sum divisible by 10).  The source performs no such
validation; this definition exists only to state that fact. -/
def isbn13CheckOk (l : List Char) : Bool :=
  decide ((l.enum.map (fun p => (if p.1 % 2 = 0 then 1 else 3) * (p.2.toNat - 48))).sum % 10 = 0)

/-- A session whose activation failed: no tick interval, no ZXing reader,
no tick in flight, nothing emitted, and not in the Scanning status. -/
def DeadZ (st : ZState) : Prop :=
  st.intervalActive = false ∧ st.zxingActive = false ∧ st.ticksInFlight = 0 ∧
    st.emitted = 0 ∧ st.status ≠ ZStatus.scanning

example : QuaggaScanner.normalizeToISBN "9780143127741".data =
    some "9780143127741".data := by decide

example : QuaggaScanner.normalizeToISBN "978-0-14-312774-1".data =
    some "9780143127741".data := by decide

example : QuaggaScanner.normalizeToISBN "014312774x".data =
    some "014312774X".data := by decide

example : QuaggaScanner.normalizeToISBN "hello".data = none := by decide

example : QuaggaScanner.normalizeToISBN "123".data = none := by decide

/-! ## Character-level helper lemmas -/

theorem keep_of_digit {c : Char} (h : isDigitC c = true) : keepC c = true := by
  simp [keepC, h]

theorem keepC_iff {c : Char} :
    keepC c = true ↔ (isDigitC c = true ∨ c = 'X' ∨ c = 'x') := by
  simp [keepC, Bool.or_eq_true, decide_eq_true_iff, or_assoc]

theorem toUpperC_of_digit {c : Char} (h : isDigitC c = true) : toUpperC c = c := by
  have h2 : 48 ≤ c.toNat ∧ c.toNat ≤ 57 := by simpa [isDigitC] using h
  have h3 : ¬ (97 ≤ c.toNat ∧ c.toNat ≤ 122) := by omega
  simp [toUpperC, h3]

theorem digit_ne_x {c : Char} (h : isDigitC c = true) : c ≠ 'x' := by
  intro he
  subst he
  exact absurd h (by decide)

theorem keepC_toUpperC {c : Char} (h : keepC c = true) : keepC (toUpperC c) = true := by
  rcases keepC_iff.mp h with hd | hX | hx
  · rw [toUpperC_of_digit hd]; exact h
  · subst hX; decide
  · subst hx; decide

theorem toUpperC_idem {c : Char} (h : keepC c = true) :
    toUpperC (toUpperC c) = toUpperC c := by
  rcases keepC_iff.mp h with hd | hX | hx
  · rw [toUpperC_of_digit hd, toUpperC_of_digit hd]
  · subst hX; decide
  · subst hx; decide

theorem filter_keepC_of_all {l : List Char} (h : ∀ c ∈ l, keepC c = true) :
    l.filter keepC = l :=
  List.filter_eq_self.mpr h

theorem isbn13Shape_kept {l : List Char} (h : ISBN13Shape l) :
    ∀ c ∈ l, keepC c = true :=
  fun c hc => keep_of_digit (h.2.1 c hc)

theorem isbn10Shape_kept {l : List Char} (h : ISBN10Shape l) :
    ∀ c ∈ l, keepC c = true := by
  intro c hc
  obtain ⟨hlen, h9, h1⟩ := h
  rw [← List.take_append_drop 9 l] at hc
  rcases List.mem_append.mp hc with h | h
  · exact keep_of_digit (h9 c h)
  · exact keepC_iff.mpr (h1 c h)

/-! ## Normalizer branch lemmas -/

theorem normalize_of_13 {l : List Char} (h : ISBN13Shape (l.filter keepC)) :
    QuaggaScanner.normalizeToISBN l = some (l.filter keepC) := by
  unfold QuaggaScanner.normalizeToISBN
  rw [if_pos h]

theorem normalize_of_10 {l : List Char} (h13 : ¬ ISBN13Shape (l.filter keepC))
    (h10 : ISBN10Shape (l.filter keepC)) :
    QuaggaScanner.normalizeToISBN l = some ((l.filter keepC).map toUpperC) := by
  unfold QuaggaScanner.normalizeToISBN
  rw [if_neg h13, if_pos h10]

/-! ## Claims about the normalizer -/

/-- Claim C2: for every string of length 13 consisting only of decimal
digits and beginning with "978" or "979", `normalizeToISBN` returns the
string unchanged; acceptance depends only on this shape (in particular no
check-digit arithmetic is consulted, so the witness below is an accepted
string whose ISBN-13 check digit is arithmetically invalid). -/
theorem c2_isbn13_shape_passthrough (s : List Char)
    (hlen : s.length = 13)
    (hdig : ∀ c ∈ s, isDigitC c = true)
    (hpre : s.take 3 = ['9', '7', '8'] ∨ s.take 3 = ['9', '7', '9']) :
    QuaggaScanner.normalizeToISBN s = some s := by
  have hf : s.filter keepC = s :=
    filter_keepC_of_all (fun c hc => keep_of_digit (hdig c hc))
  have h13 : ISBN13Shape (s.filter keepC) := by
    rw [hf]; exact ⟨hlen, hdig, hpre⟩
  rw [normalize_of_13 h13, hf]

/-- Witness for C2 at "9780000000001", a 13-digit 978-prefixed string whose
check digit is arithmetically invalid: the hypotheses hold, the normalizer
accepts it unchanged, and the ISBN-13 checksum condition fails on it. -/
theorem c2_witness :
    ("9780000000001".data.length = 13 ∧
      (∀ c ∈ "9780000000001".data, isDigitC c = true) ∧
      ("9780000000001".data.take 3 = ['9', '7', '8'] ∨
        "9780000000001".data.take 3 = ['9', '7', '9'])) ∧
    QuaggaScanner.normalizeToISBN "9780000000001".data =
      some "9780000000001".data ∧
    isbn13CheckOk "9780000000001".data = false :=
  ⟨⟨by decide, by decide, by decide⟩,
   c2_isbn13_shape_passthrough "9780000000001".data (by decide) (by decide) (by decide),
   by decide⟩

/-- Claim C3: for every string of length 10 whose first 9 characters are
decimal digits and whose last character is a digit or "X"/"x", the
normalizer returns the string with a trailing lowercase "x" upper-cased and
every other character unchanged. -/
theorem c3_isbn10_uppercased (s : List Char) (c : Char)
    (hlen : s.length = 9)
    (hdig : ∀ d ∈ s, isDigitC d = true)
    (hc : isDigitC c = true ∨ c = 'X' ∨ c = 'x') :
    QuaggaScanner.normalizeToISBN (s ++ [c]) =
      some (s ++ [if c = 'x' then 'X' else c]) := by
  have hkeep : ∀ d ∈ s ++ [c], keepC d = true := by
    intro d hd
    rcases List.mem_append.mp hd with h | h
    · exact keep_of_digit (hdig d h)
    · rw [List.mem_singleton.mp h]; exact keepC_iff.mpr hc
  have hf : (s ++ [c]).filter keepC = s ++ [c] := filter_keepC_of_all hkeep
  have hlen10 : (s ++ [c]).length = 10 := by simp [hlen]
  have h13 : ¬ ISBN13Shape ((s ++ [c]).filter keepC) := by
    rw [hf]
    rintro ⟨h, -, -⟩
    omega
  have h10 : ISBN10Shape ((s ++ [c]).filter keepC) := by
    rw [hf]
    refine ⟨hlen10, ?_, ?_⟩
    · rw [List.take_left' hlen]; exact hdig
    · rw [List.drop_left' hlen]
      intro d hd
      rw [List.mem_singleton.mp hd]
      exact hc
  rw [normalize_of_10 h13 h10, hf, List.map_append]
  congr 2
  · exact (List.map_congr_left (fun a ha => toUpperC_of_digit (hdig a ha))).trans
      (List.map_id s)
  · simp only [List.map_cons, List.map_nil]
    congr 1
    rcases hc with hd | hX | hx
    · rw [toUpperC_of_digit hd, if_neg (digit_ne_x hd)]
    · subst hX; decide
    · subst hx; decide

/-- Witness for C3 at "014312774" ++ "x": hypotheses hold and the result is
"014312774X". -/
theorem c3_witness :
    ("014312774".data.length = 9 ∧
      (∀ d ∈ "014312774".data, isDigitC d = true) ∧
      (isDigitC 'x' = true ∨ 'x' = 'X' ∨ 'x' = 'x')) ∧
    QuaggaScanner.normalizeToISBN ("014312774".data ++ ['x']) =
      some ("014312774".data ++ [if 'x' = 'x' then 'X' else 'x']) :=
  ⟨⟨by decide, by decide, by decide⟩,
   c3_isbn10_uppercased "014312774".data 'x' (by decide) (by decide) (by decide)⟩

/-- Claim C4: for a valid canonical identifier `c` and any string `s`
obtained by interspersing the characters of `c` with characters outside
`[0-9Xx]` (hyphens, spaces, control characters) — i.e. any `s` whose
`[0-9Xx]`-restriction is exactly `c` — normalization of `s` agrees with
normalization of `c`. -/
theorem c4_interspersal (c s : List Char)
    (hvalid : (QuaggaScanner.normalizeToISBN c).isSome = true)
    (hs : s.filter keepC = c) :
    QuaggaScanner.normalizeToISBN s = QuaggaScanner.normalizeToISBN c := by
  subst hs
  have hf : (s.filter keepC).filter keepC = s.filter keepC :=
    filter_keepC_of_all (fun a ha => List.of_mem_filter ha)
  unfold QuaggaScanner.normalizeToISBN
  rw [hf]

/-- Witness for C4 at the spec's example: `c` = "9780143127741",
`s` = "978-0-14-312774-1"; both normalize to "9780143127741". -/
theorem c4_witness :
    (QuaggaScanner.normalizeToISBN "9780143127741".data).isSome = true ∧
    "978-0-14-312774-1".data.filter keepC = "9780143127741".data ∧
    QuaggaScanner.normalizeToISBN "978-0-14-312774-1".data =
      QuaggaScanner.normalizeToISBN "9780143127741".data ∧
    QuaggaScanner.normalizeToISBN "978-0-14-312774-1".data =
      some "9780143127741".data :=
  ⟨by decide, by decide,
   c4_interspersal "9780143127741".data "978-0-14-312774-1".data (by decide) (by decide),
   by decide⟩

/-- Claim C5: every input whose cleaned form (after removing all characters
outside `[0-9Xx]`) matches neither accepted shape is rejected with `none`. -/
theorem c5_reject (s : List Char)
    (h13 : ¬ ISBN13Shape (s.filter keepC))
    (h10 : ¬ ISBN10Shape (s.filter keepC)) :
    QuaggaScanner.normalizeToISBN s = none := by
  unfold QuaggaScanner.normalizeToISBN
  rw [if_neg h13, if_neg h10]

/-- Witness for C5 at the spec's examples "hello" and "123". -/
theorem c5_witness :
    ((¬ ISBN13Shape ("hello".data.filter keepC)) ∧
      (¬ ISBN10Shape ("hello".data.filter keepC)) ∧
      QuaggaScanner.normalizeToISBN "hello".data = none) ∧
    ((¬ ISBN13Shape ("123".data.filter keepC)) ∧
      (¬ ISBN10Shape ("123".data.filter keepC)) ∧
      QuaggaScanner.normalizeToISBN "123".data = none) :=
  ⟨⟨by decide, by decide, c5_reject "hello".data (by decide) (by decide)⟩,
   ⟨by decide, by decide, c5_reject "123".data (by decide) (by decide)⟩⟩

/-- Claim C6: the normalizer is idempotent on its accepted outputs — if
`normalizeToISBN s` returns some canonical identifier `c`, then
normalizing `c` again returns `c` unchanged. -/
theorem c6_idempotent (s c : List Char)
    (h : QuaggaScanner.normalizeToISBN s = some c) :
    QuaggaScanner.normalizeToISBN c = some c := by
  unfold QuaggaScanner.normalizeToISBN at h
  by_cases h13 : ISBN13Shape (s.filter keepC)
  · rw [if_pos h13] at h
    obtain rfl : s.filter keepC = c := Option.some.inj h
    have hf : (s.filter keepC).filter keepC = s.filter keepC :=
      filter_keepC_of_all (isbn13Shape_kept h13)
    have h13b : ISBN13Shape ((s.filter keepC).filter keepC) := by
      rw [hf]; exact h13
    rw [normalize_of_13 h13b, hf]
  · rw [if_neg h13] at h
    by_cases h10 : ISBN10Shape (s.filter keepC)
    · rw [if_pos h10] at h
      obtain rfl : (s.filter keepC).map toUpperC = c := Option.some.inj h
      have hkeptl : ∀ a ∈ s.filter keepC, keepC a = true := isbn10Shape_kept h10
      have hkeptm : ∀ a ∈ (s.filter keepC).map toUpperC, keepC a = true := by
        intro a ha
        rcases List.mem_map.mp ha with ⟨b, hb, rfl⟩
        exact keepC_toUpperC (hkeptl b hb)
      have hfm : ((s.filter keepC).map toUpperC).filter keepC =
          (s.filter keepC).map toUpperC := filter_keepC_of_all hkeptm
      obtain ⟨hlen, h9, h1⟩ := h10
      have h13m : ¬ ISBN13Shape (((s.filter keepC).map toUpperC).filter keepC) := by
        rw [hfm]
        rintro ⟨hz, -, -⟩
        rw [List.length_map, hlen] at hz
        omega
      have h10m : ISBN10Shape (((s.filter keepC).map toUpperC).filter keepC) := by
        rw [hfm]
        refine ⟨by rw [List.length_map, hlen], ?_, ?_⟩
        · intro a ha
          rw [← List.map_take] at ha
          rcases List.mem_map.mp ha with ⟨b, hb, rfl⟩
          rw [toUpperC_of_digit (h9 b hb)]
          exact h9 b hb
        · intro a ha
          rw [← List.map_drop] at ha
          rcases List.mem_map.mp ha with ⟨b, hb, rfl⟩
          rcases h1 b hb with hd | hX | hx
          · rw [toUpperC_of_digit hd]; exact Or.inl hd
          · subst hX; exact Or.inr (Or.inl (by decide))
          · subst hx; exact Or.inr (Or.inl (by decide))
      rw [normalize_of_10 h13m h10m, hfm]
      congr 1
      rw [List.map_map]
      exact List.map_congr_left (fun a ha => toUpperC_idem (hkeptl a ha))
    · rw [if_neg h10] at h
      simp at h

/-- Witness for C6: "0-14-312774-x" normalizes to "014312774X", and
normalizing "014312774X" again is a no-op. -/
theorem c6_witness :
    QuaggaScanner.normalizeToISBN "0-14-312774-x".data = some "014312774X".data ∧
    QuaggaScanner.normalizeToISBN "014312774X".data = some "014312774X".data :=
  ⟨by decide,
   c6_idempotent "0-14-312774-x".data "014312774X".data (by decide)⟩

/-- Claim C10: the two textual copies of the normalizer — in the Quagga
scanner component and in the BarcodeDetector/ZXing scanner component — are
extensionally equal. -/
theorem c10_normalizer_copies_agree (s : List Char) :
    QuaggaScanner.normalizeToISBN s = ZXingScanner.normalizeToISBN s := rfl

/-! ## Claim C1: the detection lock in the Quagga scanner -/

theorem runQ_cons (st : QState) (e : QEvent) (evs : List QEvent) :
    runQ st (e :: evs) = runQ (stepQ st e) evs := rfl

/-- Each handler step either leaves the live-emission counter and the lock
unchanged, or (only from an unlocked state, only on the live path) emits
once and sets the lock. -/
theorem stepQ_cases (st : QState) (e : QEvent) :
    ((stepQ st e).emittedLive = st.emittedLive ∧
      (stepQ st e).detectionLock = st.detectionLock) ∨
    (st.detectionLock = false ∧ (stepQ st e).emittedLive = st.emittedLive + 1 ∧
      (stepQ st e).detectionLock = true) := by
  cases e with
  | detected code =>
    cases hl : st.detectionLock with
    | true => left; simp [stepQ, hl]
    | false =>
      cases code with
      | none => left; simp [stepQ, hl]
      | some c =>
        cases hn : QuaggaScanner.normalizeToISBN c with
        | none => left; simp [stepQ, hl, hn]
        | some i => right; simp [stepQ, hl, hn]
  | stillDecoded code =>
    left
    cases code with
    | none => simp [stepQ]
    | some c =>
      cases hn : QuaggaScanner.normalizeToISBN c with
      | none => simp [stepQ, hn]
      | some i => simp [stepQ, hn]

/-- Once the lock is set, no further live emission ever occurs. -/
theorem runQ_locked (evs : List QEvent) :
    ∀ st : QState, st.detectionLock = true →
      (runQ st evs).emittedLive = st.emittedLive ∧
        (runQ st evs).detectionLock = true := by
  induction evs with
  | nil => exact fun st h => ⟨rfl, h⟩
  | cons e evs ih =>
    intro st h
    rw [runQ_cons]
    rcases stepQ_cases st e with ⟨h1, h2⟩ | ⟨h1, -, -⟩
    · obtain ⟨g1, g2⟩ := ih (stepQ st e) (h2.trans h)
      exact ⟨g1.trans h1, g2⟩
    · rw [h1] at h
      cases h

/-- From an unlocked state, at most one live emission is added. -/
theorem runQ_unlocked (evs : List QEvent) :
    ∀ st : QState, st.detectionLock = false →
      (runQ st evs).emittedLive ≤ st.emittedLive + 1 := by
  induction evs with
  | nil => intro st h; exact Nat.le_succ _
  | cons e evs ih =>
    intro st h
    rw [runQ_cons]
    rcases stepQ_cases st e with ⟨h1, h2⟩ | ⟨-, h1, h2⟩
    · calc (runQ (stepQ st e) evs).emittedLive
          ≤ (stepQ st e).emittedLive + 1 := ih _ (h2.trans h)
        _ = st.emittedLive + 1 := by rw [h1]
    · rw [(runQ_locked evs (stepQ st e) h2).1, h1]

/-- Claim C1, counterexample: a raw detection accepted by the live
`Quagga.onDetected` callback followed by a still-frame `decodeSingle`
result (in flight from a "Decode Still" press during the same scan)
produces TWO `onISBNDetected` emissions in one activation, because the
still-frame path neither checks nor sets `detectionLockRef`; so "at most
one event, enforced by the detection lock" is false for the combined
paths. -/
theorem c1_counterexample :
    ¬ ((runQ initQ [QEvent.detected (some "9780143127741".data),
          QEvent.stillDecoded (some "9780316769488".data)]).emittedLive +
        (runQ initQ [QEvent.detected (some "9780143127741".data),
          QEvent.stillDecoded (some "9780316769488".data)]).emittedStill ≤ 1) := by
  decide

/-- Claim C1 as amended: across any sequence of raw detections delivered to
an activation, at most one `onISBNDetected` event is emitted by the LIVE
decode callback — this is what the `detectionLockRef` guard enforces; the
still-frame decode path is outside the lock's protection. -/
theorem c1_amended_live_lock (evs : List QEvent) :
    (runQ initQ evs).emittedLive ≤ 1 :=
  runQ_unlocked evs initQ rfl

/-! ## Claim C7: stale detections after teardown -/

theorem runZ_cons (st : ZState) (e : ZEvent) (evs : List ZEvent) :
    runZ st (e :: evs) = runZ (stepZ st e) evs := rfl

/-- From an unmounted state with no detector tick in flight, a single event
changes neither the emission counters nor the quiet condition. -/
theorem stepZ_quiet (st : ZState) (e : ZEvent)
    (hm : st.isMounted = false) (hf : st.ticksInFlight = 0) :
    (stepZ st e).isMounted = false ∧ (stepZ st e).ticksInFlight = 0 ∧
      (stepZ st e).emitted = st.emitted ∧
      (stepZ st e).staleEmitted = st.staleEmitted := by
  cases e with
  | tickStart =>
    cases hi : st.intervalActive with
    | false => simp [stepZ, hi, hm, hf]
    | true => simp [stepZ, hi, hm, hf]
  | detectResolve code => simp [stepZ, hf, hm]
  | detectReject => simp [stepZ, hf, hm]
  | zxingResult code =>
    cases hz : st.zxingActive with
    | false => simp [stepZ, hz, hm, hf]
    | true => simp [stepZ, hz, hm, hf]
  | zxingError =>
    cases hz : st.zxingActive with
    | false => simp [stepZ, hz, hm, hf]
    | true => simp [stepZ, hz, hm, hf]
  | cancel => simp [stepZ, stopScanS, hm, hf]

/-- From an unmounted state with no detector tick in flight, no event
sequence ever changes the emission counters. -/
theorem runZ_quiet (evs : List ZEvent) :
    ∀ st : ZState, st.isMounted = false → st.ticksInFlight = 0 →
      (runZ st evs).emitted = st.emitted ∧
        (runZ st evs).staleEmitted = st.staleEmitted := by
  induction evs with
  | nil => exact fun st _ _ => ⟨rfl, rfl⟩
  | cons e evs ih =>
    intro st hm hf
    obtain ⟨h1, h2, h3, h4⟩ := stepZ_quiet st e hm hf
    rw [runZ_cons]
    obtain ⟨g1, g2⟩ := ih _ h1 h2
    exact ⟨g1.trans h3, g2.trans h4⟩

/-- Claim C7, counterexample: activate with the native detector available
(`Env` fields: camera grants, `BarcodeDetector` present, constructor does
not throw), let a tick begin (it passes its `isMounted` guard and awaits
`detector.detect`), tear the session down (`cancel()` returns:
`isMounted = false`, `stopScan()` done), then let the in-flight `detect`
resolve with a valid barcode — the continuation after the `await` performs
no staleness re-check and emits `onISBNDetected` after teardown: one stale
emission occurs. -/
theorem c7_counterexample :
    (runZ (startZ ⟨true, true, false⟩)
      [ZEvent.tickStart, ZEvent.cancel,
        ZEvent.detectResolve (some "9780143127741".data)]).staleEmitted = 1 ∧
    (runZ (startZ ⟨true, true, false⟩)
      [ZEvent.tickStart, ZEvent.cancel,
        ZEvent.detectResolve (some "9780143127741".data)]).isMounted = false := by
  decide

/-- Claim C7 as amended: after teardown has completed AND no native-detector
tick is in flight, no `onISBNDetected` event is ever delivered: ticks
starting after teardown stop at their mount guard, and ZXing results
resolving after teardown are discarded by the decode callback's `isMounted`
check.  (Only a native-detector tick already past its guard when teardown
begins can still emit, per the counterexample.) -/
theorem c7_amended_quiet_after_teardown (st : ZState) (evs : List ZEvent)
    (hm : st.isMounted = false) (hf : st.ticksInFlight = 0) :
    (runZ st evs).emitted = st.emitted ∧
      (runZ st evs).staleEmitted = st.staleEmitted :=
  runZ_quiet evs st hm hf

/-- Witness for C7 (amended): after cancelling a ZXing-strategy session
(`Env` = camera grants, no `BarcodeDetector`), a late ZXing result and a
further tick deliver nothing. -/
theorem c7_witness :
    ((stepZ (startZ ⟨true, false, false⟩) ZEvent.cancel).isMounted = false) ∧
    ((stepZ (startZ ⟨true, false, false⟩) ZEvent.cancel).ticksInFlight = 0) ∧
    ((runZ (stepZ (startZ ⟨true, false, false⟩) ZEvent.cancel)
        [ZEvent.zxingResult (some "9780143127741".data), ZEvent.tickStart]).emitted =
      (stepZ (startZ ⟨true, false, false⟩) ZEvent.cancel).emitted ∧
      (runZ (stepZ (startZ ⟨true, false, false⟩) ZEvent.cancel)
        [ZEvent.zxingResult (some "9780143127741".data), ZEvent.tickStart]).staleEmitted =
      (stepZ (startZ ⟨true, false, false⟩) ZEvent.cancel).staleEmitted) :=
  ⟨by decide, by decide,
   c7_amended_quiet_after_teardown
     (stepZ (startZ ⟨true, false, false⟩) ZEvent.cancel)
     [ZEvent.zxingResult (some "9780143127741".data), ZEvent.tickStart]
     (by decide) (by decide)⟩

/-! ## Claim C8: native-first selection and fallback -/

/-- Claim C8, counterexample: camera acquisition succeeds, the platform
provides `BarcodeDetector`, and `new BarcodeDetector(...)` throws during
`start` — the throw lands in the generic catch of `start()`: the session
surfaces "Camera error", never reaches Scanning, and the ZXing fallback is
NOT started; so "any error during start silently switches to the software
fallback and the session reaches Scanning" is false. -/
theorem c8_counterexample :
    (startZ ⟨true, true, true⟩).cameraErrorSurfaced = true ∧
    (startZ ⟨true, true, true⟩).status ≠ ZStatus.scanning ∧
    (startZ ⟨true, true, true⟩).zxingActive = false := by
  decide

/-- Claim C8 as amended: with a camera stream acquired, activation selects
the native `BarcodeDetector` strategy first whenever the platform provides
it and its constructor succeeds (reaching Scanning with no error
surfaced); when the native API is absent, activation silently starts the
ZXing software fallback and reaches Scanning; and an error raised by the
native detector during normal operation (a rejected `detect` call of an
in-flight tick) silently switches the session to the ZXing fallback, in
Scanning status, surfacing nothing and emitting nothing.  (An exception
thrown by the native detector's constructor during `start`, however, is
surfaced as a camera error without fallback — see the counterexample.) -/
theorem c8_amended_fallback (env : Env) (st : ZState)
    (hcam : env.cameraOk = true) (hf : 0 < st.ticksInFlight) :
    (env.hasBarcodeDetector = true → env.detectorCtorThrows = false →
      (startZ env).usingDetector = true ∧ (startZ env).intervalActive = true ∧
      (startZ env).status = ZStatus.scanning ∧
      (startZ env).cameraErrorSurfaced = false) ∧
    (env.hasBarcodeDetector = false →
      (startZ env).zxingActive = true ∧ (startZ env).status = ZStatus.scanning ∧
      (startZ env).cameraErrorSurfaced = false) ∧
    ((stepZ st ZEvent.detectReject).zxingActive = true ∧
      (stepZ st ZEvent.detectReject).status = ZStatus.scanning ∧
      (stepZ st ZEvent.detectReject).cameraErrorSurfaced = st.cameraErrorSurfaced ∧
      (stepZ st ZEvent.detectReject).emitted = st.emitted) := by
  refine ⟨?_, ?_, ?_⟩
  · intro h1 h2
    simp [startZ, initZ, hcam, h1, h2]
  · intro h1
    simp [startZ, startZXingS, initZ, hcam, h1]
  · have hz : ¬ (st.ticksInFlight = 0) := by omega
    simp [stepZ, startZXingS, hz]

/-- Witness for C8 (amended) at a native-capable environment and a Scanning
state with one tick in flight. -/
theorem c8_witness :
    (⟨true, true, false⟩ : Env).cameraOk = true ∧
    0 < (stepZ (startZ ⟨true, true, false⟩) ZEvent.tickStart).ticksInFlight ∧
    (((⟨true, true, false⟩ : Env).hasBarcodeDetector = true →
        (⟨true, true, false⟩ : Env).detectorCtorThrows = false →
        (startZ ⟨true, true, false⟩).usingDetector = true ∧
        (startZ ⟨true, true, false⟩).intervalActive = true ∧
        (startZ ⟨true, true, false⟩).status = ZStatus.scanning ∧
        (startZ ⟨true, true, false⟩).cameraErrorSurfaced = false) ∧
      ((⟨true, true, false⟩ : Env).hasBarcodeDetector = false →
        (startZ ⟨true, true, false⟩).zxingActive = true ∧
        (startZ ⟨true, true, false⟩).status = ZStatus.scanning ∧
        (startZ ⟨true, true, false⟩).cameraErrorSurfaced = false) ∧
      ((stepZ (stepZ (startZ ⟨true, true, false⟩) ZEvent.tickStart)
          ZEvent.detectReject).zxingActive = true ∧
        (stepZ (stepZ (startZ ⟨true, true, false⟩) ZEvent.tickStart)
          ZEvent.detectReject).status = ZStatus.scanning ∧
        (stepZ (stepZ (startZ ⟨true, true, false⟩) ZEvent.tickStart)
          ZEvent.detectReject).cameraErrorSurfaced =
          (stepZ (startZ ⟨true, true, false⟩) ZEvent.tickStart).cameraErrorSurfaced ∧
        (stepZ (stepZ (startZ ⟨true, true, false⟩) ZEvent.tickStart)
          ZEvent.detectReject).emitted =
          (stepZ (startZ ⟨true, true, false⟩) ZEvent.tickStart).emitted)) :=
  ⟨rfl, by decide,
   c8_amended_fallback ⟨true, true, false⟩
     (stepZ (startZ ⟨true, true, false⟩) ZEvent.tickStart) rfl (by decide)⟩

/-! ## Claim C9: camera-acquisition failure -/

theorem stepZ_dead (st : ZState) (e : ZEvent) (h : DeadZ st) : DeadZ (stepZ st e) := by
  obtain ⟨h1, h2, h3, h4, h5⟩ := h
  cases e with
  | tickStart =>
    have hs : stepZ st ZEvent.tickStart = st := by simp [stepZ, h1]
    rw [hs]; exact ⟨h1, h2, h3, h4, h5⟩
  | detectResolve code =>
    have hs : stepZ st (ZEvent.detectResolve code) = st := by simp [stepZ, h3]
    rw [hs]; exact ⟨h1, h2, h3, h4, h5⟩
  | detectReject =>
    have hs : stepZ st ZEvent.detectReject = st := by simp [stepZ, h3]
    rw [hs]; exact ⟨h1, h2, h3, h4, h5⟩
  | zxingResult code =>
    have hs : stepZ st (ZEvent.zxingResult code) = st := by simp [stepZ, h2]
    rw [hs]; exact ⟨h1, h2, h3, h4, h5⟩
  | zxingError =>
    have hs : stepZ st ZEvent.zxingError = st := by simp [stepZ, h2]
    rw [hs]; exact ⟨h1, h2, h3, h4, h5⟩
  | cancel =>
    exact ⟨rfl, rfl, h3, h4, by simp [stepZ, stopScanS]⟩

theorem runZ_dead (evs : List ZEvent) :
    ∀ st : ZState, DeadZ st → DeadZ (runZ st evs) := by
  induction evs with
  | nil => exact fun st h => h
  | cons e evs ih =>
    intro st h
    rw [runZ_cons]
    exact ih _ (stepZ_dead st e h)

/-- Claim C9: if camera acquisition fails during activation
(`getUserMedia` rejects: permission denied or no device), activation fails
with the camera error surfaced to the caller, the session never reaches
Scanning, nothing is ever emitted, and no decode strategy or loop is left
running or restarted — scanning requires a fresh explicit activation. -/
theorem c9_camera_failure (env : Env) (evs : List ZEvent)
    (hcam : env.cameraOk = false) :
    (startZ env).cameraErrorSurfaced = true ∧
    (startZ env).status = ZStatus.cameraError ∧
    (startZ env).streamOn = false ∧
    (runZ (startZ env) evs).emitted = 0 ∧
    (runZ (startZ env) evs).status ≠ ZStatus.scanning ∧
    (runZ (startZ env) evs).intervalActive = false ∧
    (runZ (startZ env) evs).zxingActive = false := by
  have hs : startZ env =
      { initZ with status := ZStatus.cameraError, cameraErrorSurfaced := true } := by
    simp [startZ, hcam]
  have hdead : DeadZ (startZ env) := by
    rw [hs]
    exact ⟨rfl, rfl, rfl, rfl, by decide⟩
  obtain ⟨g1, g2, g3, g4, g5⟩ := runZ_dead evs (startZ env) hdead
  refine ⟨by rw [hs], by rw [hs], by rw [hs]; rfl, g4, g5, g1, g2⟩

/-- Witness for C9: camera denied, then a cancel and a stray tick — the
error is surfaced and the session stays dead. -/
theorem c9_witness :
    (⟨false, true, false⟩ : Env).cameraOk = false ∧
    ((startZ ⟨false, true, false⟩).cameraErrorSurfaced = true ∧
      (startZ ⟨false, true, false⟩).status = ZStatus.cameraError ∧
      (startZ ⟨false, true, false⟩).streamOn = false ∧
      (runZ (startZ ⟨false, true, false⟩) [ZEvent.cancel, ZEvent.tickStart]).emitted = 0 ∧
      (runZ (startZ ⟨false, true, false⟩) [ZEvent.cancel, ZEvent.tickStart]).status ≠
        ZStatus.scanning ∧
      (runZ (startZ ⟨false, true, false⟩)
        [ZEvent.cancel, ZEvent.tickStart]).intervalActive = false ∧
      (runZ (startZ ⟨false, true, false⟩)
        [ZEvent.cancel, ZEvent.tickStart]).zxingActive = false) :=
  ⟨rfl, c9_camera_failure ⟨false, true, false⟩ [ZEvent.cancel, ZEvent.tickStart] rfl⟩
